import Mathlib

set_option maxRecDepth 8000

/-!
Shallow embedding of `src/update_json.py` and `src/authenticate.py`
(repository `Anfu4354/pm-monitor-data`).

The script queries a remote geospatial service (Earth Engine), derives
scalar readings, maintains a bounded rolling history and publishes JSON
documents to a GitHub repository.  External effects (the remote reduce
call, the filesystem, the GitHub API, environment variables) are modelled
as explicit oracle arguments; numbers are modelled as exact rationals.
-/

/-- Geometries as constructed by the script: a bare point
`ee.Geometry.Point([LON, LAT])` or a buffered geometry `g.buffer(m)`. -/
inductive Geometry where
  | point (lon lat : ℚ)
  | buffer (g : Geometry) (m : ℚ)
deriving DecidableEq, Repr

/-- Python: `LAT = 25.6866` (line 48). -/
def LAT : ℚ := 256866 / 10000

/-- Python: `LON = -100.3161` (line 49). -/
def LON : ℚ := -1003161 / 10000

/-- Python: `POINT = ee.Geometry.Point([LON, LAT])` (line 50). -/
def POINT : Geometry := Geometry.point LON LAT

/-- Python: `BUFFER_M = 20000` (line 53). -/
def BUFFER_M : ℚ := 20000

/-- Python: `REDUCE_SCALE = 5000` (line 56). -/
def REDUCE_SCALE : ℚ := 5000

/-- Python: `HISTORY_MAX = 200` (line 59). -/
def HISTORY_MAX : Nat := 200

/-- Python: `datetime.datetime.now(datetime.timezone.utc).isoformat()`:
Python's `isoformat()` on a timezone-aware UTC datetime renders the naive
date-time text followed by the numeric offset `+00:00`.  `naive` stands for
the run's wall-clock date-time text. -/
def datetime_isoformat_utc (naive : String) : String := naive ++ "+00:00"

/-- Python: `now_iso()` (lines 64-65): `isoformat()` of the aware UTC now, with a
literal `"Z"` appended. -/
def now_iso (naive : String) : String := datetime_isoformat_utc naive ++ "Z"

/-- The result of `reduceRegion(...).getInfo()`: a mapping band-name →
value, where a band's value may itself be JSON `null` (no pixels). -/
abbrev BandMap := List (String × Option ℚ)

/-- Python: `ee.Date` values used by the script: the run's `now` advanced by a
whole number of days (`ee.Date(now.isoformat())`, `.advance(n, "day")`). -/
structure EEDate where
  offsetDays : Int
deriving DecidableEq, Repr

/-- Python: `ee.Date.advance(n, "day")` as used on lines 95 and 133. -/
def EEDate.advance (d : EEDate) (n : Int) (unit : String) : EEDate :=
  if unit = "day" then { offsetDays := d.offsetDays + n } else d

/-- Python: `ee_now = ee.Date(now.isoformat())` (line 94). -/
def ee_now : EEDate := { offsetDays := 0 }

/-- Python: `ee_24h = ee_now.advance(-1, "day")` (line 95). -/
def ee_24h : EEDate := ee_now.advance (-1) "day"

/-- Python: `ee_1y = ee_now.advance(-365, "day")` (line 133). -/
def ee_1y : EEDate := ee_now.advance (-365) "day"

/-- An `ee.ImageCollection` after the builder calls the script applies:
dataset id, selected band, spatial bounds filter, date filter, and a sort
key with its ascending flag. -/
structure ImageCollection where
  dataset : String
  band : Option String := none
  boundsFilter : Option Geometry := none
  dateFilter : Option (EEDate × EEDate) := none
  sortKey : Option (String × Bool) := none
deriving DecidableEq, Repr

/-- Python: `.select(b)`. -/
def ImageCollection.selectBand (c : ImageCollection) (b : String) :
    ImageCollection := { c with band := some b }

/-- Python: `.filterBounds(g)`. -/
def ImageCollection.filterBounds (c : ImageCollection) (g : Geometry) :
    ImageCollection := { c with boundsFilter := some g }

/-- Python: `.filterDate(a, b)`. -/
def ImageCollection.filterDate (c : ImageCollection) (a b : EEDate) :
    ImageCollection := { c with dateFilter := some (a, b) }

/-- Python: `.sort(key, ascending)`. -/
def ImageCollection.sortBy (c : ImageCollection) (k : String) (asc : Bool) :
    ImageCollection := { c with sortKey := some (k, asc) }

/-- The images the script hands to `safe_reduce_mean`: either the temporal
mean composite of a collection (`.mean()`) or its first element
(`.first()`). -/
inductive Img where
  | meanOf (c : ImageCollection)
  | firstOf (c : ImageCollection)
deriving DecidableEq, Repr

/-- The remote side of `reduceRegion(...).getInfo()` (and of the
`setDefaultProjection` that precedes it): given the image, the geometry and
the scale, the service either answers with a band map — possibly empty —
or raises. -/
abbrev ReduceOracle := Img → Geometry → ℚ → Except String BandMap

/-- Python: `safe_reduce_mean(img, geometry=POINT, scale=REDUCE_SCALE)`
(lines 67-88): runs the remote reduction inside `try/except`; the answer is
returned as-is (`getInfo()` "returns dict or {}"), any exception is logged
and swallowed, yielding `None`. -/
def safe_reduce_mean (remote : ReduceOracle) (img : Img)
    (geometry : Geometry := POINT) (scale : ℚ := REDUCE_SCALE) :
    Option BandMap :=
  match remote img geometry scale with
  | .ok rr => some rr
  | .error _ => none

/-- Python: `cams_nrt` (lines 98-101). -/
def cams_nrt : ImageCollection :=
  ((({ dataset := "ECMWF/CAMS/NRT" : ImageCollection }).selectBand
      "particulate_matter_d_less_than_25_um_surface").filterBounds
      (POINT.buffer BUFFER_M)).filterDate ee_24h ee_now

/-- Python: `pm25_img_now = cams_nrt.mean()` (line 103). -/
def pm25_img_now : Img := Img.meanOf cams_nrt

/-- Python: `pm25_sample_now = safe_reduce_mean(pm25_img_now)` (line 104) — note
the geometry argument is left to its default. -/
def pm25_sample_now (remote : ReduceOracle) : Option BandMap :=
  safe_reduce_mean remote pm25_img_now

/-- Python truthiness of a sample: `None` and `{}` are falsy. -/
def sample_truthy : Option BandMap → Bool
  | none => false
  | some m => !m.isEmpty

/-- The caller pattern at lines 105-109, 118-122, 143-147, 163-167:
start from `None`; if the sample is truthy, take `k = list(keys)[0]`,
`v = sample.get(k)` and publish `f v` unless `v is None`. -/
def derive_value (sample : Option BandMap) (f : ℚ → ℚ) : Option ℚ :=
  match sample with
  | none => none
  | some [] => none
  | some ((_, v) :: _) =>
    match v with
    | some x => some (f x)
    | none => none

/-- Python: `pm25_now_ug` (lines 105-109): `v * 1e9` when present. -/
def pm25_now_ug (remote : ReduceOracle) : Option ℚ :=
  derive_value (pm25_sample_now remote) (fun v => v * 1e9)

/-- Python: `era5_hourly` (lines 112-114). -/
def era5_hourly : ImageCollection :=
  (({ dataset := "ECMWF/ERA5_LAND/HOURLY" : ImageCollection }).selectBand
      "temperature_2m").filterBounds (POINT.buffer BUFFER_M)

/-- Python: `latest_temp_img = era5_hourly.sort("system:time_start", False).first()`
(line 116). -/
def latest_temp_img : Img :=
  Img.firstOf (era5_hourly.sortBy "system:time_start" false)

/-- Python: `temp_sample_now = safe_reduce_mean(latest_temp_img)` (line 117). -/
def temp_sample_now (remote : ReduceOracle) : Option BandMap :=
  safe_reduce_mean remote latest_temp_img

/-- Python: `temp_now_c` (lines 118-122): `v - 273.15` when present. -/
def temp_now_c (remote : ReduceOracle) : Option ℚ :=
  derive_value (temp_sample_now remote) (fun v => v - 273.15)

/-- The `current.json` document (lines 124-128). -/
structure CurrentJson where
  timestamp_utc : String
  pm25_ugm3 : Option ℚ
  temperature_c : Option ℚ
deriving DecidableEq, Repr

/-- Python: `current_json = {...}` (lines 124-128); `naive` is the wall-clock
date-time text at the moment `now_iso()` runs. -/
def current_json (remote : ReduceOracle) (naive : String) : CurrentJson :=
  { timestamp_utc := now_iso naive
    pm25_ugm3 := pm25_now_ug remote
    temperature_c := temp_now_c remote }

/-- Python: `cams_365` (lines 136-139). -/
def cams_365 : ImageCollection :=
  ((({ dataset := "ECMWF/CAMS/NRT" : ImageCollection }).selectBand
      "particulate_matter_d_less_than_25_um_surface").filterBounds
      (POINT.buffer BUFFER_M)).filterDate ee_1y ee_now

/-- Python: `cams_365_mean = cams_365.mean()` (line 141). -/
def cams_365_mean : Img := Img.meanOf cams_365

/-- Python: `annual_pm25_sample` (line 142). -/
def annual_pm25_sample (remote : ReduceOracle) : Option BandMap :=
  safe_reduce_mean remote cams_365_mean

/-- Python: `annual_pm25_ug` (lines 143-147). -/
def annual_pm25_ug (remote : ReduceOracle) : Option ℚ :=
  derive_value (annual_pm25_sample remote) (fun v => v * 1e9)

/-- The `annual_pm25.json` document (lines 149-153). -/
structure AnnualPm25Json where
  pm25_ugm3 : Option ℚ
  dataset : String
  generated_utc : String
deriving DecidableEq, Repr

/-- Python: `annual_pm25_json = {...}` (lines 149-153). -/
def annual_pm25_json (remote : ReduceOracle) (naive : String) :
    AnnualPm25Json :=
  { pm25_ugm3 := annual_pm25_ug remote
    dataset := "CAMS NRT (annual mean over last 365 days)"
    generated_utc := now_iso naive }

/-- Python: `era5_365` (lines 156-159). -/
def era5_365 : ImageCollection :=
  ((({ dataset := "ECMWF/ERA5_LAND/HOURLY" : ImageCollection }).selectBand
      "temperature_2m").filterBounds (POINT.buffer BUFFER_M)).filterDate
      ee_1y ee_now

/-- Python: `era5_365_mean = era5_365.mean()` (line 161). -/
def era5_365_mean : Img := Img.meanOf era5_365

/-- Python: `annual_temp_sample` (line 162). -/
def annual_temp_sample (remote : ReduceOracle) : Option BandMap :=
  safe_reduce_mean remote era5_365_mean

/-- Python: `annual_temp_c` (lines 163-167). -/
def annual_temp_c (remote : ReduceOracle) : Option ℚ :=
  derive_value (annual_temp_sample remote) (fun v => v - 273.15)

/-- The `annual_temperature.json` document (lines 169-173). -/
structure AnnualTempJson where
  temperature_c : Option ℚ
  dataset : String
  generated_utc : String
deriving DecidableEq, Repr

/-- Python: `annual_temp_json = {...}` (lines 169-173). -/
def annual_temp_json (remote : ReduceOracle) (naive : String) :
    AnnualTempJson :=
  { temperature_c := annual_temp_c remote
    dataset := "ERA5-Land (annual mean over last 365 days)"
    generated_utc := now_iso naive }

/-- One history triple `{ts, pm25, temp}` (lines 187-191). -/
structure HistEntry where
  ts : String
  pm25 : Option ℚ
  temp : Option ℚ
deriving DecidableEq, Repr

/-- The triple appended by `append_history` (lines 187-191), taken from
the current document. -/
def entry_of_current (c : CurrentJson) : HistEntry :=
  { ts := c.timestamp_utc, pm25 := c.pm25_ugm3, temp := c.temperature_c }

/-- Python's `l[-n:]`: the last `min n l.length` elements, except that
`l[-0:]` is the whole list. -/
def pyTakeLast (l : List α) (n : Nat) : List α :=
  if n = 0 then l else l.drop (l.length - n)

/-- The list transformation of `append_history` (lines 185-195) on an
already-loaded history list: append the new triple, keep `hist[-maxlen:]`
(the write-back to disk carries exactly the returned list). -/
def append_history (hist : List HistEntry) (e : HistEntry)
    (maxlen : Nat := HISTORY_MAX) : List HistEntry :=
  pyTakeLast (hist ++ [e]) maxlen

/-- JSON values as produced by `json.load`. -/
inductive Json where
  | null
  | bool (b : Bool)
  | num (q : ℚ)
  | str (s : String)
  | arr (l : List Json)
  | obj (o : List (String × Json))

/-- The filesystem side of `open(path).read()`: the file's text, or a
raised `OSError` when the file is missing or unreadable. -/
abbrev FileOracle := Except String String

/-- The `json.load` side: the parsed value, or a raised decode error. -/
abbrev ParseOracle := String → Except String Json

/-- Python: `read_local_history(path)` (lines 178-183): whatever `json.load`
yields is returned unchanged; any exception while opening, reading or
parsing is swallowed and `[]` is returned. -/
def read_local_history (file : FileOracle) (parse : ParseOracle) : Json :=
  match file with
  | .error _ => Json.arr []
  | .ok s =>
    match parse s with
    | .error _ => Json.arr []
    | .ok j => j

/-- Python: `hist.append(x)` on the untyped loaded value (line 187): Python lists
have `.append`; any other value raises `AttributeError`. -/
def json_append (h : Json) (x : Json) : Except String Json :=
  match h with
  | Json.arr l => .ok (Json.arr (l ++ [x]))
  | _ => .error "AttributeError: object has no attribute append"

/-- Python: `append_history` run on the raw loaded value (lines 185-195): the
`.append` call on the loaded value is not guarded by any try/except, so a
non-list loaded value raises out of the function. -/
def append_history_py (file : FileOracle) (parse : ParseOracle)
    (entry : Json) (maxlen : Nat := HISTORY_MAX) : Except String Json :=
  match json_append (read_local_history file parse) entry with
  | .error e => .error e
  | .ok (Json.arr l) => .ok (Json.arr (pyTakeLast l maxlen))
  | .ok j => .ok j

/-- Helper for `basename`: scan the characters, restarting the kept
segment after every `/`. -/
def basenameChars : List Char → List Char → List Char
  | [], acc => acc.reverse
  | c :: cs, acc =>
    if c = '/' then basenameChars cs [] else basenameChars cs (c :: acc)

/-- Python: `os.path.basename` on the repository paths used here (no trailing
slash): the text after the last `/`. -/
def basename (p : String) : String := { data := basenameChars p.data [] }

/-- The metadata `repo.get_contents` returns: a path and the revision
token (`sha`). -/
structure RemoteContents where
  path : String
  sha : String
deriving DecidableEq, Repr

/-- The GitHub side of `upload_json`: `get_contents(path)`,
`update_file(path, message, content, sha)` and
`create_file(path, message, content)`, each of which may raise. -/
structure RepoOracle where
  get_contents : String → Except String RemoteContents
  update_file : String → String → String → String → Except String Unit
  create_file : String → String → String → Except String Unit

/-- The observable outcome of one `upload_json` call: updated (with the
commit message and the revision token passed to `update_file`), created
(with the commit message passed to `create_file`), or logged failure. -/
inductive UploadOutcome where
  | updated (message : String) (sha : String)
  | created (message : String)
  | failed (path : String)
deriving DecidableEq, Repr

/-- Python: `upload_json(path_in_repo, local_file)` (lines 223-235): try to fetch
the existing document and update it in place with message
`"Auto-update <basename>"` and the fetched `sha`; on any exception in that
block, try to create it with message `"Create <basename>"`; if that also
raises, log the failure for this file and return. -/
def upload_json (repo : RepoOracle) (path_in_repo : String)
    (content : String) : UploadOutcome :=
  let update_try :=
    match repo.get_contents path_in_repo with
    | .ok contents =>
      match repo.update_file contents.path
          ("Auto-update " ++ basename path_in_repo) content contents.sha with
      | .ok _ =>
        some (UploadOutcome.updated
          ("Auto-update " ++ basename path_in_repo) contents.sha)
      | .error _ => none
    | .error _ => none
  match update_try with
  | some outcome => outcome
  | none =>
    match repo.create_file path_in_repo
        ("Create " ++ basename path_in_repo) content with
    | .ok _ => UploadOutcome.created ("Create " ++ basename path_in_repo)
    | .error _ => UploadOutcome.failed path_in_repo

/-- Python: `OUT_CURRENT` (line 41). -/
def OUT_CURRENT : String := "data/current.json"

/-- Python: `OUT_ANNUAL_PM25` (line 42). -/
def OUT_ANNUAL_PM25 : String := "data/annual_pm25.json"

/-- Python: `OUT_ANNUAL_TEMP` (line 43). -/
def OUT_ANNUAL_TEMP : String := "data/annual_temperature.json"

/-- Python: `OUT_HISTORY` (line 44). -/
def OUT_HISTORY : String := "data/history.json"

/-- The four sequential `upload_json` calls (lines 237-240): each call is
a pure function of the oracle and its own file, so every document is
attempted whatever the earlier outcomes were. -/
def upload_all (repo : RepoOracle) (c1 c2 c3 c4 : String) :
    List UploadOutcome :=
  [ upload_json repo OUT_CURRENT c1
  , upload_json repo OUT_ANNUAL_PM25 c2
  , upload_json repo OUT_ANNUAL_TEMP c3
  , upload_json repo OUT_HISTORY c4 ]

/-- The process environment: variable name → value, `none` if unset. -/
abbrev Env := String → Option String

/-- Python: `TOKEN = os.getenv("GITHUB_TOKEN"); if not TOKEN: raise RuntimeError`
(lines 216-218): absent or empty token raises. -/
def github_token (env : Env) : Except String String :=
  match env "GITHUB_TOKEN" with
  | none => .error "GITHUB_TOKEN environment variable not set."
  | some t =>
    if t = "" then .error "GITHUB_TOKEN environment variable not set."
    else .ok t

/-- The upload stage (lines 216-240): the token check precedes every
remote upload, so a missing token aborts with a raised error and no upload
is attempted. -/
def publish_stage (env : Env) (repo : RepoOracle) (c1 c2 c3 c4 : String) :
    Except String (List UploadOutcome) :=
  match github_token env with
  | .error e => .error e
  | .ok _ => .ok (upload_all repo c1 c2 c3 c4)

/-- Python: `service_account = os.environ["EE_SERVICE_ACCOUNT"]`
(`authenticate.py` line 5): a mapping subscript raises `KeyError` when the
variable is absent. -/
def service_account (env : Env) : Except String String :=
  match env "EE_SERVICE_ACCOUNT" with
  | none => .error "KeyError: EE_SERVICE_ACCOUNT"
  | some v => .ok v

/-! ## Theorems -/

/-- Helper: with the default capacity 200 the list `append_history`
returns is a suffix of `hist ++ [e]`. -/
theorem append_history_eq_drop (hist : List HistEntry) (e : HistEntry) :
    append_history hist e = hist.drop (hist.length + 1 - 200) ++ [e] := by
  have h200 : HISTORY_MAX = 200 := rfl
  unfold append_history pyTakeLast
  rw [h200, if_neg (by omega), List.length_append]
  simp only [List.length_cons, List.length_nil]
  exact List.drop_append_of_le_length (by omega)

/-- C1: appending the triple derived from the current reading to a loaded
history list always yields a list of length at most 200 ending in the new
triple; on a full 200-entry log the result has length 200, starts at the
previously-2nd element and ends at the new triple; on an empty history the
result is exactly the singleton of the new triple. -/
theorem C1_append_history_bounds (hist : List HistEntry) (c : CurrentJson) :
    (append_history hist (entry_of_current c)).length ≤ 200 ∧
    (append_history hist (entry_of_current c)).getLast? =
      some (entry_of_current c) ∧
    (hist.length = 200 →
      (append_history hist (entry_of_current c)).length = 200 ∧
      (append_history hist (entry_of_current c)).head? = hist[1]? ∧
      (append_history hist (entry_of_current c)).getLast? =
        some (entry_of_current c)) ∧
    append_history [] (entry_of_current c) = [entry_of_current c] := by
  have hb := append_history_eq_drop hist (entry_of_current c)
  refine ⟨?_, ?_, ?_, rfl⟩
  · rw [hb]; simp only [List.length_append, List.length_drop,
      List.length_cons, List.length_nil]; omega
  · rw [hb]; simp
  · intro h
    refine ⟨?_, ?_, ?_⟩
    · rw [hb]; simp only [List.length_append, List.length_drop,
        List.length_cons, List.length_nil]; omega
    · rcases hist with _ | ⟨a, hist'⟩
      · simp at h
      · rcases hist' with _ | ⟨b, t⟩
        · simp at h
        · rw [hb, show (a :: b :: t).length + 1 - 200 = 1 from by omega]
          simp
    · rw [hb]; simp

/-- A concrete current reading used to exercise the history theorems. -/
def current_T1 : CurrentJson :=
  { timestamp_utc := "T1", pm25_ugm3 := some 10, temperature_c := some 20 }

/-- A concrete full 200-entry history log. -/
def hist200 : List HistEntry :=
  List.replicate 200 { ts := "T0", pm25 := some 1, temp := some 2 }

/-- Witness for C1 at a concrete full 200-entry log. -/
theorem C1_append_history_bounds_witness :
    (append_history hist200 (entry_of_current current_T1)).length = 200 ∧
    (append_history hist200 (entry_of_current current_T1)).head? =
      hist200[1]? ∧
    (append_history hist200 (entry_of_current current_T1)).getLast? =
      some (entry_of_current current_T1) :=
  (C1_append_history_bounds hist200 current_T1).2.2.1 (by simp [hist200])

/-- A remote oracle whose reduction succeeds with an empty mapping — the
behaviour the source itself annotates on the `getInfo()` call, which
"returns dict or {}". -/
def empty_map_remote : ReduceOracle := fun _ _ _ => .ok []

/-- C2 counterexample: when the remote reduction succeeds with an empty
mapping, `safe_reduce_mean` returns that empty mapping, which is neither a
non-empty mapping nor the absent marker `None`. -/
theorem C2_counterexample :
    safe_reduce_mean empty_map_remote pm25_img_now = some [] ∧
    ¬((∃ m, safe_reduce_mean empty_map_remote pm25_img_now = some m ∧
          m ≠ []) ∨
      safe_reduce_mean empty_map_remote pm25_img_now = none) := by
  refine ⟨rfl, ?_⟩
  rintro (⟨m, hm, hne⟩ | hn)
  · rw [show safe_reduce_mean empty_map_remote pm25_img_now = some []
      from rfl] at hm
    exact hne (Option.some.inj hm).symm
  · rw [show safe_reduce_mean empty_map_remote pm25_img_now = some []
      from rfl] at hn
    exact Option.noConfusion hn

/-- C2 amended: `safe_reduce_mean` never raises — for every remote
behaviour it returns exactly the remote mapping (possibly empty) when the
call succeeds and `None` when the call raises; the callers treat both the
empty mapping and `None` as absent, substituting no zero. -/
theorem C2_amended_reduce_total (remote : ReduceOracle) (img : Img)
    (g : Geometry) (s : ℚ) (f : ℚ → ℚ) :
    ((∃ rr, remote img g s = .ok rr ∧
        safe_reduce_mean remote img g s = some rr) ∨
      (∃ e, remote img g s = .error e ∧
        safe_reduce_mean remote img g s = none)) ∧
    derive_value (some []) f = none ∧
    derive_value none f = none := by
  refine ⟨?_, rfl, rfl⟩
  unfold safe_reduce_mean
  cases h : remote img g s with
  | ok rr => exact .inl ⟨rr, rfl, rfl⟩
  | error e => exact .inr ⟨e, rfl, rfl⟩

/-- C3: whenever a spatial reduction is absent — the call raised (`None`),
the mapping is empty, or the leading band value is JSON null — the
corresponding output field is `null` (the field is structurally present in
every document and carries `none`, never `0`). -/
theorem C3_absent_reduction_yields_null (remote : ReduceOracle)
    (naive : String) :
    ((pm25_sample_now remote = none ∨ pm25_sample_now remote = some []) →
      (current_json remote naive).pm25_ugm3 = none) ∧
    ((temp_sample_now remote = none ∨ temp_sample_now remote = some []) →
      (current_json remote naive).temperature_c = none) ∧
    (∀ k rest, pm25_sample_now remote = some ((k, none) :: rest) →
      (current_json remote naive).pm25_ugm3 = none) ∧
    (∀ k rest, temp_sample_now remote = some ((k, none) :: rest) →
      (current_json remote naive).temperature_c = none) ∧
    ((annual_pm25_sample remote = none ∨
        annual_pm25_sample remote = some []) →
      (annual_pm25_json remote naive).pm25_ugm3 = none) ∧
    ((annual_temp_sample remote = none ∨
        annual_temp_sample remote = some []) →
      (annual_temp_json remote naive).temperature_c = none) := by
  refine ⟨?_, ?_, ?_, ?_, ?_, ?_⟩
  · rintro (h | h) <;>
      simp [current_json, pm25_now_ug, derive_value, h]
  · rintro (h | h) <;>
      simp [current_json, temp_now_c, derive_value, h]
  · intro k rest h
    simp [current_json, pm25_now_ug, derive_value, h]
  · intro k rest h
    simp [current_json, temp_now_c, derive_value, h]
  · rintro (h | h) <;>
      simp [annual_pm25_json, annual_pm25_ug, derive_value, h]
  · rintro (h | h) <;>
      simp [annual_temp_json, annual_temp_c, derive_value, h]

/-- A remote oracle on which every reduction raises. -/
def failing_remote : ReduceOracle := fun _ _ _ => .error "EEException"

/-- Witness for C3: with an always-raising remote, every published value
field is null. -/
theorem C3_absent_reduction_yields_null_witness :
    (current_json failing_remote "T").pm25_ugm3 = none ∧
    (current_json failing_remote "T").temperature_c = none ∧
    (annual_pm25_json failing_remote "T").pm25_ugm3 = none ∧
    (annual_temp_json failing_remote "T").temperature_c = none := by
  have h := C3_absent_reduction_yields_null failing_remote "T"
  exact ⟨h.1 (.inl rfl), h.2.1 (.inl rfl), h.2.2.2.2.1 (.inl rfl),
    h.2.2.2.2.2 (.inl rfl)⟩

/-- C4: when the leading band value of a sample is present, the published
PM2.5 value is exactly `v * 1e9` and the published temperature is exactly
`v - 273.15`, for both the current and the annual documents. -/
theorem C4_unit_conversions_exact (remote : ReduceOracle)
    (naive : String) :
    (∀ k v rest, pm25_sample_now remote = some ((k, some v) :: rest) →
      (current_json remote naive).pm25_ugm3 = some (v * 1e9)) ∧
    (∀ k v rest, temp_sample_now remote = some ((k, some v) :: rest) →
      (current_json remote naive).temperature_c = some (v - 273.15)) ∧
    (∀ k v rest, annual_pm25_sample remote = some ((k, some v) :: rest) →
      (annual_pm25_json remote naive).pm25_ugm3 = some (v * 1e9)) ∧
    (∀ k v rest, annual_temp_sample remote = some ((k, some v) :: rest) →
      (annual_temp_json remote naive).temperature_c =
        some (v - 273.15)) := by
  refine ⟨?_, ?_, ?_, ?_⟩
  · intro k v rest h
    simp [current_json, pm25_now_ug, derive_value, h]
  · intro k v rest h
    simp [current_json, temp_now_c, derive_value, h]
  · intro k v rest h
    simp [annual_pm25_json, annual_pm25_ug, derive_value, h]
  · intro k v rest h
    simp [annual_temp_json, annual_temp_c, derive_value, h]

/-- A remote oracle answering 300 K on the latest-image reduction and a
2e-9 concentration on the composite reductions. -/
def sample300_remote : ReduceOracle := fun img _ _ =>
  match img with
  | Img.firstOf _ => .ok [("temperature_2m", some 300)]
  | Img.meanOf _ =>
    .ok [("particulate_matter_d_less_than_25_um_surface", some 2)]

/-- Witness for C4: a raw 300.0 K reading publishes exactly 26.85 °C and a
raw value 2 publishes exactly 2000000000. -/
theorem C4_unit_conversions_exact_witness :
    (current_json sample300_remote "T").pm25_ugm3 = some 2000000000 ∧
    (current_json sample300_remote "T").temperature_c = some 26.85 := by
  have h := C4_unit_conversions_exact sample300_remote "T"
  have h1 := h.1 "particulate_matter_d_less_than_25_um_surface" 2 [] rfl
  have h2 := h.2.1 "temperature_2m" 300 [] rfl
  rw [h1, h2]
  norm_num

/-- C5: the upsert behaviour of `upload_json` — a successful fetch leads
to an in-place update carrying the fetched revision token and the message
`"Auto-update <filename>"`; a raising fetch leads to a creation attempt
with the message `"Create <filename>"`; a failed creation yields a logged
per-file failure, and the four sequential uploads are each attempted
whatever the others did (the run always produces four outcomes). -/
theorem C5_upload_upsert (repo : RepoOracle) (path content : String) :
    (∀ c, repo.get_contents path = .ok c →
      repo.update_file c.path ("Auto-update " ++ basename path) content
          c.sha = .ok () →
      upload_json repo path content =
        UploadOutcome.updated ("Auto-update " ++ basename path) c.sha) ∧
    (∀ e, repo.get_contents path = .error e →
      repo.create_file path ("Create " ++ basename path) content =
        .ok () →
      upload_json repo path content =
        UploadOutcome.created ("Create " ++ basename path)) ∧
    (∀ e e2, repo.get_contents path = .error e →
      repo.create_file path ("Create " ++ basename path) content =
        .error e2 →
      upload_json repo path content = UploadOutcome.failed path) ∧
    (∀ c1 c2 c3 c4, (upload_all repo c1 c2 c3 c4).length = 4) := by
  refine ⟨?_, ?_, ?_, fun _ _ _ _ => rfl⟩
  · intro c h1 h2
    simp [upload_json, h1, h2]
  · intro e h1 h2
    simp [upload_json, h1, h2]
  · intro e e2 h1 h2
    simp [upload_json, h1, h2]

/-- A concrete GitHub oracle: `data/current.json` exists (revision
`abc123`), updates succeed, creation succeeds only for
`data/annual_pm25.json`. -/
def c5_repo : RepoOracle :=
  { get_contents := fun p =>
      if p = OUT_CURRENT then .ok { path := p, sha := "abc123" }
      else .error "404 Not Found"
    update_file := fun _ _ _ _ => .ok ()
    create_file := fun p _ _ =>
      if p = OUT_ANNUAL_PM25 then .ok () else .error "422" }

/-- Witness for C5 on the concrete oracle: update, create and logged
failure each materialize, and all four uploads are attempted. -/
theorem C5_upload_upsert_witness :
    upload_json c5_repo OUT_CURRENT "content" =
      UploadOutcome.updated "Auto-update current.json" "abc123" ∧
    upload_json c5_repo OUT_ANNUAL_PM25 "content" =
      UploadOutcome.created "Create annual_pm25.json" ∧
    upload_json c5_repo OUT_HISTORY "content" =
      UploadOutcome.failed OUT_HISTORY ∧
    (upload_all c5_repo "a" "b" "c" "d").length = 4 := by
  refine ⟨?_, ?_, ?_,
    (C5_upload_upsert c5_repo OUT_CURRENT "content").2.2.2 "a" "b" "c" "d"⟩
  · have h := (C5_upload_upsert c5_repo OUT_CURRENT "content").1
      { path := OUT_CURRENT, sha := "abc123" } rfl rfl
    rw [h]; rfl
  · have h := (C5_upload_upsert c5_repo OUT_ANNUAL_PM25 "content").2.1
      "404 Not Found" rfl rfl
    rw [h]; rfl
  · exact (C5_upload_upsert c5_repo OUT_HISTORY "content").2.2.1
      "404 Not Found" "422" rfl rfl

/-- A remote oracle that answers only when the reduction geometry is a
buffered geometry, and raises on a bare point. -/
def buffered_only_remote : ReduceOracle := fun _ g _ =>
  match g with
  | Geometry.buffer _ _ => .ok [("band", some 1)]
  | Geometry.point _ _ => .error "geometry is a bare point"

/-- C6 counterexample: under an oracle that succeeds exactly on buffered
geometries, all four reduction calls of the script come back absent while
an explicit call at the buffered point succeeds — so the geometry argument
the script passes to the Reducer is not the buffered point. -/
theorem C6_counterexample :
    pm25_sample_now buffered_only_remote = none ∧
    temp_sample_now buffered_only_remote = none ∧
    annual_pm25_sample buffered_only_remote = none ∧
    annual_temp_sample buffered_only_remote = none ∧
    safe_reduce_mean buffered_only_remote pm25_img_now
      (POINT.buffer BUFFER_M) = some [("band", some 1)] :=
  ⟨rfl, rfl, rfl, rfl, rfl⟩

/-- C6 amended: every collection is spatially filtered by the point
buffered by 20 km, but each of the four Reducer calls leaves the geometry
argument at its default, the bare point — which differs from the buffered
point. -/
theorem C6_amended_bare_point_reduction (remote : ReduceOracle) :
    pm25_sample_now remote =
      safe_reduce_mean remote pm25_img_now POINT REDUCE_SCALE ∧
    temp_sample_now remote =
      safe_reduce_mean remote latest_temp_img POINT REDUCE_SCALE ∧
    annual_pm25_sample remote =
      safe_reduce_mean remote cams_365_mean POINT REDUCE_SCALE ∧
    annual_temp_sample remote =
      safe_reduce_mean remote era5_365_mean POINT REDUCE_SCALE ∧
    cams_nrt.boundsFilter = some (POINT.buffer BUFFER_M) ∧
    era5_hourly.boundsFilter = some (POINT.buffer BUFFER_M) ∧
    cams_365.boundsFilter = some (POINT.buffer BUFFER_M) ∧
    era5_365.boundsFilter = some (POINT.buffer BUFFER_M) ∧
    POINT ≠ POINT.buffer BUFFER_M := by
  refine ⟨rfl, rfl, rfl, rfl, rfl, rfl, rfl, rfl, ?_⟩
  intro h
  rw [show POINT = Geometry.point LON LAT from rfl] at h
  exact Geometry.noConfusion h

/-- C7: `read_local_history` swallows every failure — a missing or
unreadable file, or text that fails to parse, both yield the empty list,
and no error reaches the caller (the embedding is a total function into
JSON values). -/
theorem C7_history_load_swallows_errors (file : FileOracle)
    (parse : ParseOracle) :
    (∀ e, file = .error e →
      read_local_history file parse = Json.arr []) ∧
    (∀ s e, file = .ok s → parse s = .error e →
      read_local_history file parse = Json.arr []) := by
  constructor
  · intro e h
    simp [read_local_history, h]
  · intro s e h1 h2
    simp [read_local_history, h1, h2]

/-- A parse oracle on which every text raises a decode error. -/
def garbage_parse : ParseOracle := fun _ => .error "JSONDecodeError"

/-- Witness for C7 at a missing file and at an unparsable file. -/
theorem C7_history_load_swallows_errors_witness :
    read_local_history (.error "FileNotFoundError") garbage_parse =
      Json.arr [] ∧
    read_local_history (.ok "not json") garbage_parse = Json.arr [] :=
  ⟨(C7_history_load_swallows_errors (.error "FileNotFoundError")
      garbage_parse).1 "FileNotFoundError" rfl,
   (C7_history_load_swallows_errors (.ok "not json") garbage_parse).2
      "not json" "JSONDecodeError" rfl rfl⟩

/-- C8: an absent `GITHUB_TOKEN` makes the publish stage abort with the
raised `RuntimeError` before any upload, and an absent
`EE_SERVICE_ACCOUNT` makes the bootstrap raise a `KeyError`. -/
theorem C8_missing_env_aborts (env : Env) (repo : RepoOracle)
    (c1 c2 c3 c4 : String) :
    (env "GITHUB_TOKEN" = none →
      publish_stage env repo c1 c2 c3 c4 =
        .error "GITHUB_TOKEN environment variable not set." ∧
      ∀ outcomes, publish_stage env repo c1 c2 c3 c4 ≠ .ok outcomes) ∧
    (env "EE_SERVICE_ACCOUNT" = none →
      service_account env = .error "KeyError: EE_SERVICE_ACCOUNT") := by
  constructor
  · intro h
    have herr : publish_stage env repo c1 c2 c3 c4 =
        .error "GITHUB_TOKEN environment variable not set." := by
      simp [publish_stage, github_token, h]
    refine ⟨herr, fun outcomes hc => ?_⟩
    rw [herr] at hc
    exact Except.noConfusion hc
  · intro h
    simp [service_account, h]

/-- An empty process environment. -/
def no_env : Env := fun _ => none

/-- A GitHub oracle on which every call raises; the publish stage must
abort before ever consulting it. -/
def dead_repo : RepoOracle :=
  { get_contents := fun _ => .error "unreachable"
    update_file := fun _ _ _ _ => .error "unreachable"
    create_file := fun _ _ _ => .error "unreachable" }

/-- Witness for C8 at the empty environment. -/
theorem C8_missing_env_aborts_witness :
    publish_stage no_env dead_repo "a" "b" "c" "d" =
      .error "GITHUB_TOKEN environment variable not set." ∧
    service_account no_env = .error "KeyError: EE_SERVICE_ACCOUNT" :=
  ⟨((C8_missing_env_aborts no_env dead_repo "a" "b" "c" "d").1 rfl).1,
   (C8_missing_env_aborts no_env dead_repo "a" "b" "c" "d").2 rfl⟩

/-- Modelled from the spec: "timestamp: ISO-8601 UTC string".  A necessary
condition of ISO-8601 is that a timestamp carries at most one timezone
designator, so a string ending in the numeric UTC offset `+00:00`
immediately followed by `Z` is not a valid ISO-8601 timestamp. -/
def iso8601_single_tz_suffix (s : String) : Bool :=
  !(List.isSuffixOf "+00:00Z".data s.data)

/-- C9 (code bug): `now_iso` appends a literal `"Z"` to the `isoformat()`
text of an offset-aware datetime, so every produced `timestamp_utc` (and
every history `ts`, which copies it) ends in `+00:00Z` — two timezone
designators, not a valid ISO-8601 timestamp. -/
theorem C9_timestamp_double_timezone :
    now_iso "2026-10-12T02:00:00.000000" =
      "2026-10-12T02:00:00.000000+00:00Z" ∧
    iso8601_single_tz_suffix (now_iso "2026-10-12T02:00:00.000000") =
      false ∧
    (current_json failing_remote
        "2026-10-12T02:00:00.000000").timestamp_utc =
      "2026-10-12T02:00:00.000000+00:00Z" ∧
    (entry_of_current (current_json failing_remote
        "2026-10-12T02:00:00.000000")).ts =
      "2026-10-12T02:00:00.000000+00:00Z" := by
  refine ⟨rfl, by decide, rfl, rfl⟩

/-- C10: a loaded history file holding valid JSON whose top level is not
an array — an object or a number — is returned unchanged by
`read_local_history` (the empty-list fallback covers only raised errors),
and the following unguarded `.append` raises an `AttributeError` out of
`append_history`. -/
theorem C10_nonlist_history_unguarded (file : FileOracle)
    (parse : ParseOracle) (s : String) (entry : Json) :
    (∀ o, file = .ok s → parse s = .ok (Json.obj o) →
      read_local_history file parse = Json.obj o ∧
      append_history_py file parse entry =
        .error "AttributeError: object has no attribute append") ∧
    (∀ q, file = .ok s → parse s = .ok (Json.num q) →
      read_local_history file parse = Json.num q ∧
      append_history_py file parse entry =
        .error "AttributeError: object has no attribute append") := by
  constructor
  · intro o h1 h2
    have hr : read_local_history file parse = Json.obj o := by
      simp [read_local_history, h1, h2]
    exact ⟨hr, by simp [append_history_py, json_append, hr]⟩
  · intro q h1 h2
    have hr : read_local_history file parse = Json.num q := by
      simp [read_local_history, h1, h2]
    exact ⟨hr, by simp [append_history_py, json_append, hr]⟩

/-- A parse oracle yielding a JSON object at the top level. -/
def obj_parse : ParseOracle := fun _ => .ok (Json.obj [])

/-- Witness for C10 at a concrete file whose text parses to `{}`. -/
theorem C10_nonlist_history_unguarded_witness :
    read_local_history (.ok "content") obj_parse = Json.obj [] ∧
    append_history_py (.ok "content") obj_parse Json.null =
      .error "AttributeError: object has no attribute append" :=
  (C10_nonlist_history_unguarded (.ok "content") obj_parse "content" Json.null).1
    [] rfl rfl
